import Mathlib

/-!
Shallow embedding of the pyoframe model-orchestration layer
(src/pyoframe/model.py, src/pyoframe/constants.py) and theorems checking
the natural-language specification against it.

Python exceptions are modelled by the `PyErr` inductive; stateful methods
become functions returning the post state paired with `Option PyErr`
(mutations performed before an exception is raised are retained, as in
Python).  The solver adapter (pyoptinterface) is modelled abstractly: a
backend is a function from a solver name to either a fresh raw model or a
RuntimeError.  Code from modules of this repository that is imported by
model.py but not present under src/ (core.py, model_element.py,
objective.py, util.py) is modelled from the spec where a claim needs it;
such definitions carry a doc comment starting `Modelled from the spec:`.
-/

namespace Pyoframe

/-- Python exception values, distinguished by class and carrying a message
(messages follow the source text; apostrophes and interpolated reprs are
omitted). -/
inductive PyErr where
  | valueError (msg : String)
  | runtimeError (msg : String)
  | notImplementedError (msg : String)
  | pyoframeError (msg : String)
  | assertionError (msg : String)
deriving DecidableEq, Repr

/-- The closed set of supported solver names (constants.py
`SUPPORTED_SOLVERS = ["gurobi", "highs", "ipopt"]`). -/
inductive Solver where
  | gurobi
  | highs
  | ipopt
deriving DecidableEq, Repr

/-- constants.py line 23: the ordered list of supported solvers. -/
def SUPPORTED_SOLVERS : List Solver := [.gurobi, .highs, .ipopt]

/-- constants.py line 28: reserved variable ID for constant terms. -/
def CONST_TERM : Nat := 0

/-! ### pyoptinterface vocabulary (external collaborator, closed enums) -/

/-- poi.ConstraintSense values. -/
inductive PoiConstraintSense where
  | LessEqual
  | GreaterEqual
  | Equal
deriving DecidableEq, Repr

/-- poi.ObjectiveSense values. -/
inductive PoiObjectiveSense where
  | Minimize
  | Maximize
deriving DecidableEq, Repr

/-- poi.VariableDomain values. -/
inductive PoiVariableDomain where
  | Continuous
  | Binary
  | Integer
deriving DecidableEq, Repr

/-! ### Enums of constants.py -/

/-- constants.py `class ConstraintSense(Enum)`. -/
inductive ConstraintSense where
  | LE
  | GE
  | EQ
deriving DecidableEq, Repr

/-- constants.py lines 90-98: `ConstraintSense.to_poi`, an if-chain with a
final unreachable ValueError branch. -/
def ConstraintSense.to_poi (s : ConstraintSense) : Except PyErr PoiConstraintSense :=
  if s = ConstraintSense.LE then .ok PoiConstraintSense.LessEqual
  else if s = ConstraintSense.EQ then .ok PoiConstraintSense.Equal
  else if s = ConstraintSense.GE then .ok PoiConstraintSense.GreaterEqual
  else .error (.valueError "Invalid constraint type")

/-- constants.py `class ObjSense(Enum)`. -/
inductive ObjSense where
  | MIN
  | MAX
deriving DecidableEq, Repr

/-- constants.py lines 105-111: `ObjSense.to_poi`. -/
def ObjSense.to_poi (s : ObjSense) : Except PyErr PoiObjectiveSense :=
  if s = ObjSense.MIN then .ok PoiObjectiveSense.Minimize
  else if s = ObjSense.MAX then .ok PoiObjectiveSense.Maximize
  else .error (.valueError "Invalid objective sense")

/-- constants.py `class VType(Enum)`. -/
inductive VType where
  | CONTINUOUS
  | BINARY
  | INTEGER
deriving DecidableEq, Repr

/-- constants.py lines 119-127: `VType.to_poi`. -/
def VType.to_poi (s : VType) : Except PyErr PoiVariableDomain :=
  if s = VType.CONTINUOUS then .ok PoiVariableDomain.Continuous
  else if s = VType.BINARY then .ok PoiVariableDomain.Binary
  else if s = VType.INTEGER then .ok PoiVariableDomain.Integer
  else .error (.valueError "Invalid variable type")

/-! ### Raw solver models (pyoptinterface adapter, abstract) -/

/-- A raw solver variable handle as returned by `model.add_variable`:
its stable integer index, bounds and name. -/
structure PoiVar where
  index : Nat
  lb : Int
  ub : Int
  vname : String
deriving DecidableEq, Repr

/-- A raw solver model: the ordered list of variables added to it. -/
structure PoiModel where
  pvars : List PoiVar
deriving DecidableEq, Repr

/-- `model.add_variable(lb, ub, name)`: appends a variable whose index is
the number of variables already present (how pyoptinterface assigns
stable indices), returning the new model and the handle. -/
def PoiModel.add_variable (m : PoiModel) (lb ub : Int) (vname : String) :
    PoiModel × PoiVar :=
  let v : PoiVar := ⟨m.pvars.length, lb, ub, vname⟩
  (⟨m.pvars ++ [v]⟩, v)

/-- A solver backend environment: for each supported solver, constructing
its adapter model either succeeds with a fresh raw model or raises
(e.g. RuntimeError when the solver is not installed). -/
def Backend := Solver → Except PyErr PoiModel

/-- model.py lines 122-152: the concrete-solver path of
`Model.create_poi_model`: build the raw model for the named solver, add
the constant-term variable `ONE` with bounds 1..1, and check that it got
index `CONST_TERM`. -/
def create_named (backend : Backend) (solver : Solver) :
    Except PyErr (PoiModel × Solver) := do
  let mdl ← backend solver
  let (mdl, constant_var) := mdl.add_variable 1 1 "ONE"
  if constant_var.index ≠ CONST_TERM then
    .error (.valueError "The first variable should have index 0.")
  else
    .ok (mdl, solver)

/-- model.py line 116-118: the message raised when no solver can be
auto-detected. -/
def no_solver_msg : String :=
  "Could not automatically find a solver. Is one installed? If so, specify which one: e.g. Model(solver=\"gurobi\")"

/-- model.py lines 111-118: the auto-detection loop: try each solver in
order, moving on only when the attempt raises RuntimeError; raise a
ValueError when the list is exhausted. -/
def auto_detect (backend : Backend) : List Solver → Except PyErr (PoiModel × Solver)
  | [] => .error (.valueError no_solver_msg)
  | s :: rest =>
    match create_named backend s with
    | .ok r => .ok r
    | .error (.runtimeError _) => auto_detect backend rest
    | .error e => .error e

/-- model.py lines 105-152: `Model.create_poi_model`.  `solver` is the
constructor argument, `default_solver` is `Config.default_solver`. -/
def create_poi_model (backend : Backend) (solver : Option Solver)
    (default_solver : Option Solver) : Except PyErr (PoiModel × Solver) :=
  match solver with
  | none =>
    match default_solver with
    | none => auto_detect backend SUPPORTED_SOLVERS
    | some s => create_named backend s
  | some s => create_named backend s

/-! ### Model elements (core.py / model_element.py / objective.py are not
under src/; their parts needed here are modelled from the spec) -/

/-- Modelled from the spec: an `Expression` (core.py, missing from src/)
is opaque for the claims below; only its identity matters. -/
structure Expression where
  eid : Nat
deriving DecidableEq, Repr

/-- Modelled from the spec: an `Objective` (objective.py, missing from
src/) wraps an Expression; `constructive` mirrors the `_constructive`
flag consulted by the objective setter (set only on objectives built by
the `+=`/`-=` syntax); `bound_name` records binding to a model, `none`
while unbound. -/
structure Objective where
  constructive : Bool
  expr : Expression
  bound_name : Option String := none
deriving DecidableEq, Repr

/-- Modelled from the spec: objective.py's `Objective(value)` constructor
wrapping a plain Expression; fresh objectives are unbound and not
constructive. -/
def Objective.ofExpr (e : Expression) : Objective :=
  { constructive := false, expr := e, bound_name := none }

/-- Modelled from the spec: `on_add_to_model` for an Objective
(model_element.py, missing from src/): binding is idempotent-guarded —
an already-bound element is rejected; otherwise the element records the
attribute name it is bound under. -/
def Objective.on_add_to_model (o : Objective) (attr_name : String) :
    Except PyErr Objective :=
  match o.bound_name with
  | some _ => .error (.assertionError "Cannot bind an element that is already bound.")
  | none => .ok { o with bound_name := some attr_name }

/-- A value assigned to `Model.objective`: either an Objective or some
other value (a plain Expression) that the setter must wrap. -/
inductive ObjInput where
  | obj (o : Objective)
  | expr (e : Expression)
deriving DecidableEq, Repr

/-- `isinstance(value, Objective) and value._constructive` for a setter
input. -/
def ObjInput.isConstructiveObjective : ObjInput → Bool
  | .obj o => o.constructive
  | .expr _ => false

/-- The input is not yet bound to any model. -/
def ObjInput.isUnbound : ObjInput → Bool
  | .obj o => o.bound_name.isNone
  | .expr _ => true

/-- Modelled from the spec: a `Variable` (core.py, missing from src/) as
far as binding is concerned: a ModelElementWithId, unbound until
attached. -/
structure PFVariable where
  vbound_name : Option String := none
deriving DecidableEq, Repr

/-- Modelled from the spec: a `Constraint` (core.py, missing from src/)
as far as binding is concerned. -/
structure PFConstraint where
  cbound_name : Option String := none
deriving DecidableEq, Repr

/-- A ModelElement value as dispatched on by `Model.__setattr__`:
Variables and Constraints are ModelElementWithId; `plain` stands for a
ModelElement that carries no ID (e.g. an Objective or a Set). -/
inductive MElem where
  | varE (v : PFVariable)
  | constrE (c : PFConstraint)
  | plain (bound_name : Option String)
deriving DecidableEq, Repr

/-- `isinstance(value, ModelElementWithId)`. -/
def MElem.hasId : MElem → Bool
  | .varE _ => true
  | .constrE _ => true
  | .plain _ => false

/-- Modelled from the spec: `on_add_to_model` for a Variable, Constraint
or plain element — idempotent-guarded binding, as for Objectives. -/
def MElem.on_add_to_model (e : MElem) (attr_name : String) : Except PyErr MElem :=
  match e with
  | .varE v =>
    match v.vbound_name with
    | some _ => .error (.assertionError "Cannot bind an element that is already bound.")
    | none => .ok (.varE { v with vbound_name := some attr_name })
  | .constrE c =>
    match c.cbound_name with
    | some _ => .error (.assertionError "Cannot bind an element that is already bound.")
    | none => .ok (.constrE { c with cbound_name := some attr_name })
  | .plain b =>
    match b with
    | some _ => .error (.assertionError "Cannot bind an element that is already bound.")
    | none => .ok (.plain (some attr_name))

/-- A value assigned to a Model attribute, as classified by the
isinstance checks of `Model.__setattr__`: a ModelElement, a polars or
pandas DataFrame, or anything else. -/
inductive AttrValue where
  | elem (e : MElem)
  | polars_df
  | pandas_df
  | other
deriving DecidableEq, Repr

/-- `isinstance(value, (ModelElement, pl.DataFrame, pd.DataFrame))`. -/
def AttrValue.isElementOrDF : AttrValue → Bool
  | .elem _ => true
  | .polars_df => true
  | .pandas_df => true
  | .other => false

/-! ### The Model (model.py) -/

/-- model.py lines 58-77: `Model._reserved_attributes`. -/
def reserved_attributes : List String :=
  ["_variables", "_constraints", "_objective", "var_map", "io_mappers",
   "name", "solver", "poi", "params", "result", "attr", "sense",
   "objective", "_use_var_names", "ONE", "solver_name", "minimize",
   "maximize"]

/-- Class-level attributes of `Model` (methods and properties) that are
not in `_reserved_attributes` but make `hasattr` true for a fresh
instance. -/
def model_class_attributes : List String :=
  ["variables", "binary_variables", "integer_variables", "constraints",
   "use_var_names", "create_poi_model", "write", "optimize",
   "convert_to_fixed", "compute_IIS", "dispose", "_set_param",
   "_get_param", "_set_attr", "_get_attr", "_reserved_attributes"]

/-- The state of a `Model` instance: reserved attributes become fields;
non-reserved instance attributes live in the `attrs` association list.
`solver_name` and the raw solver model come from `create_poi_model`;
`raw_params` models `poi.set_raw_parameter` calls. -/
structure Model where
  solver_name : Solver
  poi : PoiModel
  sense : Option ObjSense := none
  objective_attr : Option ObjInput := none
  variables_attr : List PFVariable := []
  constraints_attr : List PFConstraint := []
  attrs : List (String × AttrValue) := []
  raw_params : List (String × Int) := []
  use_var_names : Bool := false
deriving DecidableEq, Repr

/-- `hasattr(self, name)` for a non-reserved name: true when the name is
a class-level method/property or a previously set instance attribute. -/
def Model.hasattrName (m : Model) (name : String) : Bool :=
  (m.attrs.lookup name).isSome || model_class_attributes.contains name

/-- model.py line 195: the message of the objective-already-set error. -/
def objective_exists_msg : String :=
  "An objective already exists. Use += or -= to modify it."

/-- model.py lines 190-199: the `Model.objective` setter.  Returns the
post state and the raised exception, if any; `self._objective = value`
happens before `value.on_add_to_model`, so a binding failure leaves the
new (unbound) objective stored. -/
def Model.objective_setter (m : Model) (value : ObjInput) :
    Model × Option PyErr :=
  if m.objective_attr.isSome ∧ ¬ value.isConstructiveObjective then
    (m, some (.valueError objective_exists_msg))
  else
    let o := match value with
      | .obj o => o
      | .expr e => Objective.ofExpr e
    match o.on_add_to_model "objective" with
    | .error err => ({ m with objective_attr := some (.obj o) }, some err)
    | .ok o2 => ({ m with objective_attr := some (.obj o2) }, none)

/-- model.py lines 201-205: the `Model.minimize` getter. -/
def Model.minimize_getter (m : Model) : Except PyErr (Option ObjInput) :=
  if m.sense ≠ some ObjSense.MIN then
    .error (.valueError "Cannot get .minimize in a maximization problem.")
  else
    .ok m.objective_attr

/-- model.py lines 207-213: the `Model.minimize` setter: a `None` sense
is first set to MIN (a mutation kept even if a later step raises). -/
def Model.minimize_setter (m : Model) (value : ObjInput) :
    Model × Option PyErr :=
  let m := if m.sense = none then { m with sense := some ObjSense.MIN } else m
  if m.sense ≠ some ObjSense.MIN then
    (m, some (.valueError "Cannot set .minimize in a maximization problem."))
  else
    m.objective_setter value

/-- model.py lines 215-219: the `Model.maximize` getter. -/
def Model.maximize_getter (m : Model) : Except PyErr (Option ObjInput) :=
  if m.sense ≠ some ObjSense.MAX then
    .error (.valueError "Cannot get .maximize in a minimization problem.")
  else
    .ok m.objective_attr

/-- model.py lines 221-227: the `Model.maximize` setter. -/
def Model.maximize_setter (m : Model) (value : ObjInput) :
    Model × Option PyErr :=
  let m := if m.sense = none then { m with sense := some ObjSense.MAX } else m
  if m.sense ≠ some ObjSense.MAX then
    (m, some (.valueError "Cannot set .maximize in a minimization problem."))
  else
    m.objective_setter value

/-- `object.__setattr__`: record a non-reserved instance attribute
(replacing any previous entry for the name). -/
def Model.raw_setattr (m : Model) (name : String) (value : AttrValue) : Model :=
  { m with attrs := (name, value) :: m.attrs.filter (fun kv => kv.1 ≠ name) }

/-- model.py line 234: message of the PyoframeError for non-element
values (the interpolated attribute name is carried separately). -/
def cannot_set_attr_msg (name : String) : String :=
  "Cannot set attribute " ++ name ++
    " on the model because it is not of type ModelElement (e.g. Variable, Constraint, ...)"

/-- model.py lines 242-244: message of the duplicate-name assertion. -/
def already_created_msg (name : String) : String :=
  "Cannot create " ++ name ++ " since it was already created."

/-- model.py lines 229-254: `Model.__setattr__`: reject non-element
values on non-reserved names; for ModelElements on non-reserved names,
assert the name is not already taken when the element carries an ID,
bind the element, and record Variables/Constraints in the model's
collections; finally store the attribute. -/
def Model.setattr (m : Model) (name : String) (value : AttrValue) :
    Model × Option PyErr :=
  if ¬ reserved_attributes.contains name ∧ ¬ value.isElementOrDF then
    (m, some (.pyoframeError (cannot_set_attr_msg name)))
  else
    match value with
    | .elem e =>
      if ¬ reserved_attributes.contains name then
        if e.hasId ∧ m.hasattrName name then
          (m, some (.assertionError (already_created_msg name)))
        else
          match e.on_add_to_model name with
          | .error err => (m, some err)
          | .ok e2 =>
            let m2 := match e2 with
              | .varE v => { m with variables_attr := m.variables_attr ++ [v] }
              | .constrE c => { m with constraints_attr := m.constraints_attr ++ [c] }
              | .plain _ => m
            (m2.raw_setattr name (.elem e2), none)
      else
        (m.raw_setattr name value, none)
    | _ => (m.raw_setattr name value, none)

/-! ### Model.write (model.py lines 265-295) -/

/-- A file path as used by `Model.write`: the parent directory, the file
stem and the extension (`Path.suffix`, including the dot). -/
structure FilePath0 where
  parent : String
  stem : String
  suffix : String
deriving DecidableEq, Repr

/-- The full path string. -/
def FilePath0.full (p : FilePath0) : String := p.parent ++ "/" ++ p.stem ++ p.suffix

/-- The filesystem as far as `Model.write` touches it: the set of
existing directories and of written files. -/
structure FS where
  dirs : List String := []
  files : List String := []
deriving DecidableEq, Repr

/-- `file_path.parent.mkdir(parents=True, exist_ok=True)`. -/
def FS.mkdir (fs : FS) (d : String) : FS :=
  if fs.dirs.contains d then fs else { fs with dirs := d :: fs.dirs }

/-- model.py lines 284-287: the IPOPT error message, parameterised by the
lower-cased extension. -/
def ipopt_write_msg (extension : String) : String :=
  "IPOPT does not support writing models to " ++ extension ++
    " files. Use another solver like Gurobi or HiGHS if you need file export capabilities."

/-- model.py lines 265-295: `Model.write`: create the parent directory,
then raise NotImplementedError for IPOPT; otherwise (setting the HiGHS
solution style parameter when variable names are in use) delegate to the
adapter, which writes the file. -/
def Model.write (m : Model) (p : FilePath0) (pretty : Bool) (fs : FS) :
    (Model × FS) × Option PyErr :=
  let fs1 := fs.mkdir p.parent
  if m.solver_name = Solver.ipopt then
    let extension := p.suffix.toLower
    ((m, fs1), some (.notImplementedError (ipopt_write_msg extension)))
  else
    let m1 :=
      if m.solver_name = Solver.highs ∧ m.use_var_names then
        { m with raw_params := ("write_solution_style", 1) :: m.raw_params }
      else m
    let _ := pretty
    ((m1, { fs1 with files := p.full :: fs1.files }), none)

/-! ### Config (constants.py lines 40-82) -/

/-- The public configuration options collected by `_ConfigMeta` into
`Config._defaults` (every class attribute not starting with an
underscore and not a classmethod). -/
inductive ConfigOption where
  | default_solver
  | disable_unmatched_checks
  | float_to_str_precision
  | print_uses_variable_names
  | print_max_line_length
  | print_max_lines
  | print_max_set_elements
  | enable_is_duplicated_expression_safety_check
  | integer_tolerance
deriving DecidableEq, Repr

/-- A configuration value (the float `integer_tolerance` is modelled as a
rational, since only storage — not float arithmetic — is at stake). -/
inductive ConfigValue where
  | solverOpt (s : Option Solver)
  | boolVal (b : Bool)
  | natOpt (n : Option Nat)
  | natVal (n : Nat)
  | ratVal (q : ℚ)
deriving DecidableEq, Repr

/-- The mutable configuration state (class attributes of `Config`). -/
structure Config where
  default_solver : Option Solver
  disable_unmatched_checks : Bool
  float_to_str_precision : Option Nat
  print_uses_variable_names : Bool
  print_max_line_length : Nat
  print_max_lines : Nat
  print_max_set_elements : Nat
  enable_is_duplicated_expression_safety_check : Bool
  integer_tolerance : ℚ
deriving DecidableEq, Repr

/-- `setattr(cls, key, value)` on the Config class: store the value under
the key (a value of the wrong shape for the key leaves the state
unchanged; this never happens for the stored defaults). -/
def Config.set_option (c : Config) : ConfigOption → ConfigValue → Config
  | .default_solver, .solverOpt s => { c with default_solver := s }
  | .disable_unmatched_checks, .boolVal b => { c with disable_unmatched_checks := b }
  | .float_to_str_precision, .natOpt n => { c with float_to_str_precision := n }
  | .print_uses_variable_names, .boolVal b => { c with print_uses_variable_names := b }
  | .print_max_line_length, .natVal n => { c with print_max_line_length := n }
  | .print_max_lines, .natVal n => { c with print_max_lines := n }
  | .print_max_set_elements, .natVal n => { c with print_max_set_elements := n }
  | .enable_is_duplicated_expression_safety_check, .boolVal b =>
      { c with enable_is_duplicated_expression_safety_check := b }
  | .integer_tolerance, .ratVal q => { c with integer_tolerance := q }
  | _, _ => c

/-- constants.py lines 40-49 and 57-68: the `_defaults` dictionary built
by the metaclass from the class body (keys in declaration order, values
the documented defaults). -/
def Config.defaults_dict : List (ConfigOption × ConfigValue) :=
  [(.default_solver, .solverOpt none),
   (.disable_unmatched_checks, .boolVal false),
   (.float_to_str_precision, .natOpt (some 5)),
   (.print_uses_variable_names, .boolVal true),
   (.print_max_line_length, .natVal 80),
   (.print_max_lines, .natVal 15),
   (.print_max_set_elements, .natVal 50),
   (.enable_is_duplicated_expression_safety_check, .boolVal false),
   (.integer_tolerance, .ratVal (1 / 100000000))]

/-- constants.py lines 76-82: `Config.reset_defaults`: iterate over the
stored defaults, setting each option back. -/
def Config.reset_defaults (c : Config) : Config :=
  Config.defaults_dict.foldl (fun acc kv => acc.set_option kv.1 kv.2) c

/-- The documented default configuration, written out directly from the
class body of `Config`. -/
def Config.documented_default : Config :=
  { default_solver := none
    disable_unmatched_checks := false
    float_to_str_precision := some 5
    print_uses_variable_names := true
    print_max_line_length := 80
    print_max_lines := 15
    print_max_set_elements := 50
    enable_is_duplicated_expression_safety_check := false
    integer_tolerance := 1 / 100000000 }

/-! ### Concrete instances used by witnesses and counterexamples -/

/-- A backend for which every solver constructs a fresh, empty raw
model. -/
def fresh_backend : Backend := fun _ => .ok ⟨[]⟩

/-- A backend whose raw models already contain a variable, so the
constant-term variable cannot receive index 0. -/
def occupied_backend : Backend := fun _ => .ok ⟨[⟨0, 5, 7, "X"⟩]⟩

/-- A backend for which no solver is installed: every constructor raises
a RuntimeError. -/
def all_missing_backend : Backend := fun s =>
  match s with
  | .gurobi => .error (.runtimeError "gurobi unavailable")
  | .highs => .error (.runtimeError "highs unavailable")
  | .ipopt => .error (.runtimeError "ipopt unavailable")

/-- A freshly constructed highs-backed model (as produced by
`Model.__init__` with default arguments once `create_poi_model` has
run). -/
def base_model : Model :=
  { solver_name := .highs, poi := ⟨[⟨0, 1, 1, "ONE"⟩]⟩ }

/-- `base_model` after an objective has been bound. -/
def model_with_objective : Model :=
  { base_model with objective_attr := some (.obj ⟨false, ⟨0⟩, some "objective"⟩) }

/-! ### Theorems -/

/-- C7: each member of the closed enums ConstraintSense, ObjSense and
VType is translated by `to_poi` to its corresponding adapter value
(LE→LessEqual, GE→GreaterEqual, EQ→Equal; MIN→Minimize, MAX→Maximize;
CONTINUOUS→Continuous, BINARY→Binary, INTEGER→Integer), and the error
branch is never reached: every member yields an `ok` value. -/
theorem to_poi_exhaustive_total :
    (ConstraintSense.to_poi .LE = .ok .LessEqual) ∧
    (ConstraintSense.to_poi .GE = .ok .GreaterEqual) ∧
    (ConstraintSense.to_poi .EQ = .ok .Equal) ∧
    (ObjSense.to_poi .MIN = .ok .Minimize) ∧
    (ObjSense.to_poi .MAX = .ok .Maximize) ∧
    (VType.to_poi .CONTINUOUS = .ok .Continuous) ∧
    (VType.to_poi .BINARY = .ok .Binary) ∧
    (VType.to_poi .INTEGER = .ok .Integer) ∧
    (∀ s : ConstraintSense, ∃ p, s.to_poi = .ok p) ∧
    (∀ s : ObjSense, ∃ p, s.to_poi = .ok p) ∧
    (∀ s : VType, ∃ p, s.to_poi = .ok p) := by
  refine ⟨rfl, rfl, rfl, rfl, rfl, rfl, rfl, rfl, ?_, ?_, ?_⟩
  · intro s; cases s <;> exact ⟨_, rfl⟩
  · intro s; cases s <;> exact ⟨_, rfl⟩
  · intro s; cases s <;> exact ⟨_, rfl⟩

/-- C6: from any configuration state (hence after any sequence of
mutations), `Config.reset_defaults` restores every public option to its
documented default value. -/
theorem config_reset_restores_defaults (c : Config) :
    c.reset_defaults = Config.documented_default := rfl

/-- Helper: the two branches of the objective setter guard. -/
theorem objective_setter_guard_aux (m : Model) (v : ObjInput) :
    (m.objective_attr.isSome = true → v.isConstructiveObjective = false →
      m.objective_setter v = (m, some (.valueError objective_exists_msg))) ∧
    (m.objective_attr = none → v.isUnbound = true →
      (m.objective_setter v).2 = none) := by
  constructor
  · intro h1 h2
    unfold Model.objective_setter
    simp [h1, h2]
  · intro h1 h2
    unfold Model.objective_setter
    rw [if_neg (by simp [h1])]
    cases v with
    | obj o =>
      simp only [ObjInput.isUnbound, Option.isNone_iff_eq_none] at h2
      simp [Objective.on_add_to_model, h2]
    | expr e =>
      simp [Objective.on_add_to_model, Objective.ofExpr]

/-- Helper: a successful objective-setter run always stores a (wrapped,
bound) Objective. -/
theorem objective_setter_stores_aux (m : Model) (v : ObjInput) (m2 : Model) :
    m.objective_setter v = (m2, none) →
      (∃ o : Objective, m2.objective_attr = some (.obj o)) ∧
      (∀ e : Expression, v = .expr e →
        m2.objective_attr =
          some (.obj { constructive := false, expr := e, bound_name := some "objective" })) := by
  intro h
  unfold Model.objective_setter at h
  split at h
  · exact absurd (congrArg Prod.snd h) (by simp)
  · cases v with
    | obj o =>
      cases ho : o.bound_name with
      | some s => simp [Objective.on_add_to_model, ho] at h
      | none =>
        simp only [Objective.on_add_to_model, ho] at h
        injection h with h1 h2
        subst h1
        exact ⟨⟨_, rfl⟩, fun e he => absurd he (by simp)⟩
    | expr e =>
      simp only [Objective.ofExpr, Objective.on_add_to_model] at h
      injection h with h1 h2
      subst h1
      exact ⟨⟨_, rfl⟩, fun e2 he => by cases he; rfl⟩

/-- Helper: the objective setter never touches the model's sense. -/
theorem objective_setter_preserves_sense (m : Model) (v : ObjInput) :
    (m.objective_setter v).1.sense = m.sense := by
  unfold Model.objective_setter
  split
  · rfl
  · cases v with
    | obj o => cases ho : o.bound_name <;> simp [Objective.on_add_to_model, ho]
    | expr e => simp [Objective.ofExpr, Objective.on_add_to_model]

/-- Helper: when no objective is stored and the input is fresh, the
setter succeeds and stores some objective. -/
theorem objective_setter_success_of_none (m : Model) (v : ObjInput)
    (h1 : m.objective_attr = none) (h2 : v.isUnbound = true) :
    (m.objective_setter v).2 = none ∧
      ∃ o, (m.objective_setter v).1.objective_attr = some (.obj o) := by
  have hs := (objective_setter_guard_aux m v).2 h1 h2
  refine ⟨hs, ?_⟩
  exact (objective_setter_stores_aux m v (m.objective_setter v).1 (Prod.ext rfl hs)).1

/-- C1: when an objective is already set, assigning a value that is not a
constructive Objective raises a ValueError and leaves the model — in
particular the existing objective — unchanged; when no objective is set,
assigning a (fresh) objective succeeds. -/
theorem objective_setter_guard (m : Model) (v : ObjInput) :
    (m.objective_attr.isSome = true → v.isConstructiveObjective = false →
      m.objective_setter v = (m, some (.valueError objective_exists_msg))) ∧
    (m.objective_attr = none → v.isUnbound = true →
      (m.objective_setter v).2 = none) :=
  (objective_setter_guard_aux m v)

/-- C1 witness: at a fresh highs model with an objective already stored,
assigning a plain expression raises the ValueError; at a model without
an objective, assigning a fresh expression succeeds. -/
theorem objective_setter_guard_witness :
    (model_with_objective.objective_setter (.expr ⟨1⟩) =
      (model_with_objective, some (.valueError objective_exists_msg))) ∧
    ((base_model.objective_setter (.expr ⟨1⟩)).2 = none) :=
  ⟨(objective_setter_guard model_with_objective _).1 rfl rfl,
   (objective_setter_guard base_model _).2 rfl rfl⟩

/-- C9: every successful assignment through the objective setter stores
an Objective: a non-Objective input (a plain Expression) is wrapped into
one before being recorded, so the stored slot is always an Objective on
success. -/
theorem objective_setter_stores_objective (m : Model) (v : ObjInput) (m2 : Model) :
    m.objective_setter v = (m2, none) →
      (∃ o : Objective, m2.objective_attr = some (.obj o)) ∧
      (∀ e : Expression, v = .expr e →
        m2.objective_attr =
          some (.obj { constructive := false, expr := e, bound_name := some "objective" })) :=
  objective_setter_stores_aux m v m2

/-- C9 witness: assigning a plain expression to a fresh model stores the
wrapped, bound Objective. -/
theorem objective_setter_stores_objective_witness :
    (∃ o : Objective,
      ({ base_model with
          objective_attr := some (.obj ⟨false, ⟨2⟩, some "objective"⟩) }).objective_attr =
        some (.obj o)) ∧
    (∀ e : Expression, (ObjInput.expr ⟨2⟩) = .expr e →
      ({ base_model with
          objective_attr := some (.obj ⟨false, ⟨2⟩, some "objective"⟩) }).objective_attr =
        some (.obj { constructive := false, expr := e, bound_name := some "objective" })) :=
  objective_setter_stores_objective base_model (.expr ⟨2⟩)
    { base_model with objective_attr := some (.obj ⟨false, ⟨2⟩, some "objective"⟩) } rfl

/-- C8: assigning to `minimize` when the sense is unset sets the sense to
MIN and then sets the objective (succeeding if none was stored and the
input is fresh); assigning to or reading `minimize` on a maximization
model raises a ValueError and leaves the model (hence the objective)
unchanged — and symmetrically for `maximize` on a minimization model. -/
theorem minimize_maximize_sense_guard (m : Model) (v : ObjInput) :
    (m.sense = none → ((m.minimize_setter v).1).sense = some ObjSense.MIN) ∧
    (m.sense = none → m.objective_attr = none → v.isUnbound = true →
      (m.minimize_setter v).2 = none ∧
      ∃ o, ((m.minimize_setter v).1).objective_attr = some (.obj o)) ∧
    (m.sense = some ObjSense.MAX →
      m.minimize_setter v =
        (m, some (.valueError "Cannot set .minimize in a maximization problem."))) ∧
    (m.sense = some ObjSense.MAX →
      m.minimize_getter =
        .error (.valueError "Cannot get .minimize in a maximization problem.")) ∧
    (m.sense = none → ((m.maximize_setter v).1).sense = some ObjSense.MAX) ∧
    (m.sense = none → m.objective_attr = none → v.isUnbound = true →
      (m.maximize_setter v).2 = none ∧
      ∃ o, ((m.maximize_setter v).1).objective_attr = some (.obj o)) ∧
    (m.sense = some ObjSense.MIN →
      m.maximize_setter v =
        (m, some (.valueError "Cannot set .maximize in a minimization problem."))) ∧
    (m.sense = some ObjSense.MIN →
      m.maximize_getter =
        .error (.valueError "Cannot get .maximize in a minimization problem.")) := by
  refine ⟨?_, ?_, ?_, ?_, ?_, ?_, ?_, ?_⟩
  · intro h
    unfold Model.minimize_setter
    rw [if_pos h, if_neg (by simp)]
    exact objective_setter_preserves_sense _ v
  · intro h h1 h2
    unfold Model.minimize_setter
    rw [if_pos h, if_neg (by simp)]
    exact objective_setter_success_of_none _ v h1 h2
  · intro h
    simp [Model.minimize_setter, h]
  · intro h
    simp [Model.minimize_getter, h]
  · intro h
    unfold Model.maximize_setter
    rw [if_pos h, if_neg (by simp)]
    exact objective_setter_preserves_sense _ v
  · intro h h1 h2
    unfold Model.maximize_setter
    rw [if_pos h, if_neg (by simp)]
    exact objective_setter_success_of_none _ v h1 h2
  · intro h
    simp [Model.maximize_setter, h]
  · intro h
    simp [Model.maximize_getter, h]

/-- C8 witness: on a fresh model (sense unset), assigning through
`minimize` sets the sense and succeeds; on a maximization model,
assigning and reading `minimize` raise ValueErrors; symmetrically,
assigning through `maximize` on that maximization model succeeds. -/
theorem minimize_maximize_sense_guard_witness :
    (((base_model.minimize_setter (.expr ⟨3⟩)).1).sense = some ObjSense.MIN) ∧
    ((base_model.minimize_setter (.expr ⟨3⟩)).2 = none) ∧
    ({ base_model with sense := some ObjSense.MAX }.minimize_setter (.expr ⟨3⟩) =
      ({ base_model with sense := some ObjSense.MAX },
       some (.valueError "Cannot set .minimize in a maximization problem."))) ∧
    ({ base_model with sense := some ObjSense.MAX }.minimize_getter =
      .error (.valueError "Cannot get .minimize in a maximization problem.")) ∧
    ((base_model.maximize_setter (.expr ⟨3⟩)).2 = none) := by
  have h1 := minimize_maximize_sense_guard base_model (.expr ⟨3⟩)
  have h2 := minimize_maximize_sense_guard
    { base_model with sense := some ObjSense.MAX } (.expr ⟨3⟩)
  exact ⟨h1.1 rfl, (h1.2.1 rfl rfl rfl).1, h2.2.2.1 rfl, h2.2.2.2.1 rfl,
    (h1.2.2.2.2.2.1 rfl rfl rfl).1⟩

/-- C3: when a non-reserved attribute name is already bound to an
ID-bearing element, attaching another ID-bearing element under the same
name raises the duplicate-name assertion and leaves the model
unchanged. -/
theorem setattr_duplicate_name_guard (m : Model) (name : String)
    (e0 e1 : MElem) :
    reserved_attributes.contains name = false →
    m.attrs.lookup name = some (.elem e0) →
    e0.hasId = true →
    e1.hasId = true →
    m.setattr name (.elem e1) =
      (m, some (.assertionError (already_created_msg name))) := by
  intro hres hlook _ hid1
  have hres2 : name ∉ reserved_attributes := by simpa using hres
  unfold Model.setattr
  simp [hres2, AttrValue.isElementOrDF, Model.hasattrName, hlook, hid1]

/-- C3 witness: re-attaching a variable under the name already holding a
bound variable is rejected. -/
theorem setattr_duplicate_name_guard_witness :
    ({ base_model with
        variables_attr := [⟨some "X"⟩],
        attrs := [("X", .elem (.varE ⟨some "X"⟩))] }.setattr "X"
          (.elem (.varE ⟨none⟩)) =
      ({ base_model with
          variables_attr := [⟨some "X"⟩],
          attrs := [("X", .elem (.varE ⟨some "X"⟩))] },
       some (.assertionError (already_created_msg "X")))) :=
  setattr_duplicate_name_guard _ "X" (.varE ⟨some "X"⟩) (.varE ⟨none⟩)
    rfl rfl rfl rfl

/-- C5: assigning a value that is neither a ModelElement nor a dataframe
to a non-reserved attribute raises a PyoframeError and leaves the model
— in particular its variable and constraint collections — unchanged. -/
theorem setattr_non_element_rejected (m : Model) (name : String) :
    reserved_attributes.contains name = false →
    m.setattr name .other =
      (m, some (.pyoframeError (cannot_set_attr_msg name))) ∧
    ((m.setattr name .other).1.variables_attr = m.variables_attr ∧
     (m.setattr name .other).1.constraints_attr = m.constraints_attr) := by
  intro hres
  have hres2 : name ∉ reserved_attributes := by simpa using hres
  have h : m.setattr name .other =
      (m, some (.pyoframeError (cannot_set_attr_msg name))) := by
    unfold Model.setattr
    simp [hres2, AttrValue.isElementOrDF]
  exact ⟨h, by rw [h], by rw [h]⟩

/-- C5 witness: assigning a plain value under a fresh name on a fresh
model is rejected without touching the collections. -/
theorem setattr_non_element_rejected_witness :
    (base_model.setattr "foo" .other =
      (base_model, some (.pyoframeError (cannot_set_attr_msg "foo")))) ∧
    ((base_model.setattr "foo" .other).1.variables_attr =
      base_model.variables_attr ∧
     (base_model.setattr "foo" .other).1.constraints_attr =
      base_model.constraints_attr) :=
  setattr_non_element_rejected base_model "foo" rfl

/-- C10: calling `write` on an ipopt-backed model raises a
NotImplementedError and writes no model file, yet the parent directory
of the given path exists afterwards (the directory creation happens
before the solver check). -/
theorem write_ipopt_raises (m : Model) (p : FilePath0) (pretty : Bool)
    (fs : FS) :
    m.solver_name = .ipopt →
    m.write p pretty fs =
      ((m, fs.mkdir p.parent),
       some (.notImplementedError (ipopt_write_msg p.suffix.toLower))) ∧
    ((m.write p pretty fs).1.2.files = fs.files ∧
     p.parent ∈ (m.write p pretty fs).1.2.dirs) := by
  intro h
  have heq : m.write p pretty fs =
      ((m, fs.mkdir p.parent),
       some (.notImplementedError (ipopt_write_msg p.suffix.toLower))) := by
    unfold Model.write
    rw [if_pos h]
  refine ⟨heq, ?_, ?_⟩
  · rw [heq]
    unfold FS.mkdir
    split <;> rfl
  · rw [heq]
    show p.parent ∈ (fs.mkdir p.parent).dirs
    unfold FS.mkdir
    split
    · next h2 => simpa using h2
    · exact List.mem_cons_self _ _

/-- C10 witness: writing an .lp file from an ipopt model into an empty
filesystem raises, creates the parent directory and writes no file. -/
theorem write_ipopt_raises_witness :
    ({ base_model with solver_name := .ipopt }.write ⟨"out", "model", ".lp"⟩ false ⟨[], []⟩ =
      (({ base_model with solver_name := .ipopt }, ⟨["out"], []⟩),
       some (.notImplementedError (ipopt_write_msg (String.toLower ".lp"))))) ∧
    (({ base_model with solver_name := .ipopt }.write
        ⟨"out", "model", ".lp"⟩ false ⟨[], []⟩).1.2.files = [] ∧
     "out" ∈ ({ base_model with solver_name := .ipopt }.write
        ⟨"out", "model", ".lp"⟩ false ⟨[], []⟩).1.2.dirs) := by
  have h := write_ipopt_raises { base_model with solver_name := .ipopt }
    ⟨"out", "model", ".lp"⟩ false ⟨[], []⟩ rfl
  refine ⟨?_, h.2.1, h.2.2⟩
  rw [h.1]
  rfl

/-- Helper: a successful `create_named` run means the backend's raw model
was empty and the result holds exactly the constant-term variable. -/
theorem create_named_ok (backend : Backend) (s : Solver) (mdl : PoiModel)
    (s2 : Solver) (h : create_named backend s = .ok (mdl, s2)) :
    s2 = s ∧ mdl.pvars = [⟨0, 1, 1, "ONE"⟩] := by
  unfold create_named at h
  cases hb : backend s with
  | error e => rw [hb] at h; simp [Bind.bind, Except.bind] at h
  | ok m0 =>
    rw [hb] at h
    simp only [Bind.bind, Except.bind, PoiModel.add_variable] at h
    split at h
    · simp at h
    · next h2 =>
      have hlen : m0.pvars.length = 0 := by
        by_contra hc
        exact h2 (by simpa [CONST_TERM] using hc)
      have hnil : m0.pvars = [] := List.eq_nil_of_length_eq_zero hlen
      injection h with h3
      injection h3 with h4 h5
      subst h4
      exact ⟨h5.symm, by simp [hnil, hlen]⟩

/-- Helper: a successful auto-detection comes from a successful
`create_named` on one of the tried solvers. -/
theorem auto_detect_ok (backend : Backend) (l : List Solver)
    (r : PoiModel × Solver) (h : auto_detect backend l = .ok r) :
    ∃ s ∈ l, create_named backend s = .ok r := by
  induction l with
  | nil => simp [auto_detect] at h
  | cons s rest ih =>
    unfold auto_detect at h
    split at h
    · next heq => injection h with h2; subst h2; exact ⟨s, by simp, heq⟩
    · next heq =>
      obtain ⟨s2, hs2, hok⟩ := ih h
      exact ⟨s2, by simp [hs2], hok⟩
    · next heq => simp at h

/-- Helper: every successful `create_poi_model` run goes through a
successful `create_named` on some solver. -/
theorem create_poi_model_ok (backend : Backend) (sol ds : Option Solver)
    (r : PoiModel × Solver) (h : create_poi_model backend sol ds = .ok r) :
    ∃ s, create_named backend s = .ok r := by
  unfold create_poi_model at h
  cases sol with
  | some s => exact ⟨s, h⟩
  | none =>
    cases ds with
    | some s => exact ⟨s, h⟩
    | none => obtain ⟨s, _, hok⟩ := auto_detect_ok backend _ r h; exact ⟨s, hok⟩

/-- C2: however the model is constructed (any backend, any requested or
default solver), on success the raw model holds a constant-term
pseudo-variable named ONE with ID exactly `CONST_TERM = 0` and both
bounds fixed to 1; and if the backend hands over a raw model whose next
variable would not get index 0, construction fails with the
index-check ValueError. -/
theorem const_term_variable_invariant (backend : Backend)
    (sol ds : Option Solver) :
    (∀ (mdl : PoiModel) (s : Solver),
      create_poi_model backend sol ds = .ok (mdl, s) →
      ∃ v, v ∈ mdl.pvars ∧ v.index = CONST_TERM ∧ v.lb = 1 ∧ v.ub = 1 ∧
        v.vname = "ONE") ∧
    (∀ (s : Solver) (m0 : PoiModel),
      backend s = .ok m0 → m0.pvars ≠ [] →
      create_named backend s =
        .error (.valueError "The first variable should have index 0.")) := by
  constructor
  · intro mdl s h
    obtain ⟨s0, hok⟩ := create_poi_model_ok backend sol ds (mdl, s) h
    obtain ⟨-, hpv⟩ := create_named_ok backend s0 mdl s hok
    exact ⟨⟨0, 1, 1, "ONE"⟩, by simp [hpv, CONST_TERM]⟩
  · intro s m0 hb hne
    have hlen : m0.pvars.length ≠ 0 := by
      simpa [List.length_eq_zero] using hne
    unfold create_named
    rw [hb]
    simp [Bind.bind, Except.bind, PoiModel.add_variable, CONST_TERM, hlen]

/-- C2 witness: with a backend that hands out empty raw models the
constructed model holds exactly the constant-term variable; with a
backend whose raw model is already occupied, construction fails the
index check. -/
theorem const_term_variable_invariant_witness :
    (∃ v, v ∈ (PoiModel.mk [⟨0, 1, 1, "ONE"⟩]).pvars ∧ v.index = CONST_TERM ∧
      v.lb = 1 ∧ v.ub = 1 ∧ v.vname = "ONE") ∧
    create_named occupied_backend .highs =
      .error (.valueError "The first variable should have index 0.") :=
  ⟨(const_term_variable_invariant fresh_backend (some .highs) none).1
      ⟨[⟨0, 1, 1, "ONE"⟩]⟩ .highs rfl,
   (const_term_variable_invariant occupied_backend (some .highs) none).2
      .highs ⟨[⟨0, 5, 7, "X"⟩]⟩ rfl (by simp)⟩

/-- C4 counterexample: with every solver constructor failing with its own
RuntimeError, the surfaced error is the fixed could-not-find-a-solver
ValueError, not the last constructor's RuntimeError. -/
theorem auto_detect_not_last_failure :
    all_missing_backend .ipopt = .error (.runtimeError "ipopt unavailable") ∧
    create_poi_model all_missing_backend none none =
      .error (.valueError no_solver_msg) ∧
    create_poi_model all_missing_backend none none ≠
      .error (.runtimeError "ipopt unavailable") := by
  refine ⟨rfl, rfl, ?_⟩
  intro h
  rw [show create_poi_model all_missing_backend none none =
    .error (.valueError no_solver_msg) from rfl] at h
  simp at h

/-- C4 (amended): with no requested and no default solver, the adapter
constructors are tried in the fixed order gurobi, highs, ipopt until one
succeeds, a RuntimeError moving the loop to the next candidate; if all
three fail with RuntimeError, the surfaced error is a generic
could-not-find-a-solver ValueError (not the last constructor's
failure). -/
theorem auto_detect_order_and_generic_fallback (backend : Backend) :
    (∀ r, create_named backend .gurobi = .ok r →
      create_poi_model backend none none = .ok r) ∧
    (∀ msg r, create_named backend .gurobi = .error (.runtimeError msg) →
      create_named backend .highs = .ok r →
      create_poi_model backend none none = .ok r) ∧
    (∀ msg1 msg2 r, create_named backend .gurobi = .error (.runtimeError msg1) →
      create_named backend .highs = .error (.runtimeError msg2) →
      create_named backend .ipopt = .ok r →
      create_poi_model backend none none = .ok r) ∧
    (∀ msg1 msg2 msg3,
      create_named backend .gurobi = .error (.runtimeError msg1) →
      create_named backend .highs = .error (.runtimeError msg2) →
      create_named backend .ipopt = .error (.runtimeError msg3) →
      create_poi_model backend none none =
        .error (.valueError no_solver_msg)) := by
  refine ⟨?_, ?_, ?_, ?_⟩
  · intro r h
    simp [create_poi_model, SUPPORTED_SOLVERS, auto_detect, h]
  · intro msg r h1 h2
    simp [create_poi_model, SUPPORTED_SOLVERS, auto_detect, h1, h2]
  · intro msg1 msg2 r h1 h2 h3
    simp [create_poi_model, SUPPORTED_SOLVERS, auto_detect, h1, h2, h3]
  · intro msg1 msg2 msg3 h1 h2 h3
    simp [create_poi_model, SUPPORTED_SOLVERS, auto_detect, h1, h2, h3]

/-- C4 witness: a backend whose gurobi constructor succeeds is picked
first; a backend with no solver installed yields the generic
ValueError. -/
theorem auto_detect_order_and_generic_fallback_witness :
    (create_poi_model fresh_backend none none =
      .ok (⟨[⟨0, 1, 1, "ONE"⟩]⟩, .gurobi)) ∧
    (create_poi_model all_missing_backend none none =
      .error (.valueError no_solver_msg)) :=
  ⟨(auto_detect_order_and_generic_fallback fresh_backend).1 _ rfl,
   (auto_detect_order_and_generic_fallback all_missing_backend).2.2.2
      "gurobi unavailable" "highs unavailable" "ipopt unavailable" rfl rfl rfl⟩

end Pyoframe
